import Mathlib

/-!
Shallow embedding of `src/operations_ccid.c` from nitrokey-hotp-verification:
the command layer of a host-side driver for a smart-card HOTP authenticator.

Each C operation is modelled as a pure Lean function over the inputs the C
function reads: the caller-supplied arguments, the transport exchange outcome
(the `int` returned by `ccid_process_single` / `send_select_ccid` together
with the filled `IccResult`), and — for `status_ccid` — the results of the
three `get_tlv` field lookups.  External collaborators (the TLV codec, the
USB transport, the base32 decoder) are consumed through these parameters,
exactly as the C consumes them through their interfaces.

Besides its return value, every operation yields a trace of observable
events (buffer clearing, request encoding, transport exchange, response
field extraction) in the order the C code performs them, so that ordering
claims ("fails before any transport call", "buffers are cleared before
encoding") are statable.  A `rassert` contract violation aborts the
operation: the result is `none` and the trace stops at the point of failure.
-/

namespace NkHotp

/-- An observable step of an operation, in source order:
`clear` is the `clean_buffers(dev)` call, `encode` the
`icc_pack_tlvs_for_sending` call carrying the TLV list and instruction byte,
`transport` one `ccid_process_single` / `send_select_ccid` exchange,
`decodeB32` the `base32_decode` call, and `extract t` a `get_tlv` lookup of
tag `t` in the response. -/
inductive Event where
  | clear : Event
  | encode : List Nat → Nat → Event
  | transport : Event
  | decodeB32 : Event
  | extract : Nat → Event
deriving DecidableEq, Repr

/-- The transport's view of one response: status word (16-bit), response
data bytes and their length, mirroring the C `IccResult` fields read by the
command layer. -/
structure IccResult where
  data_status_code : Nat
  data : List Nat
  data_len : Nat
deriving DecidableEq, Repr

/-- One tag-length-value request field, mirroring the C `TLV` struct:
`v_data` holds the bytes for text/raw fields, `v_raw` the value of a 32-bit
integer field. -/
structure TLV where
  tag : Nat
  length : Nat
  type : Char
  v_data : List Nat
  v_raw : Nat
deriving DecidableEq, Repr

/-! ### Constants

`return_codes.h`, `settings.h`, `tlv.h` and `utils.h` are part of this
repository but are not under `src/`; the constants below are modelled from
the spec.  The spec fixes `RET_NO_ERROR`/success as the zero status (the
code treats `0` as success throughout) and requires the named outcomes to be
distinct from one another; the concrete nonzero numerals are representative.
-/

/-- Modelled from the spec: success outcome code (`return_codes.h` is not
under `src/`); the code compares transport results against `0`. -/
def RET_NO_ERROR : Int := 0

/-- Modelled from the spec: communication-error outcome code
(`return_codes.h` is not under `src/`). -/
def RET_COMM_ERROR : Int := 2

/-- Modelled from the spec: no-PIN-attempts outcome code (`return_codes.h`
is not under `src/`). -/
def RET_NO_PIN_ATTEMPTS : Int := 3

/-- Modelled from the spec: generic validation-failure outcome code
(`return_codes.h` is not under `src/`). -/
def RET_VALIDATION_FAILED : Int := 4

/-- Modelled from the spec: validation-passed outcome code
(`return_codes.h` is not under `src/`). -/
def RET_VALIDATION_PASSED : Int := 5

/-- Modelled from the spec: wrong-PIN outcome code (`return_codes.h` is not
under `src/`). -/
def RET_WRONG_PIN : Int := 6

/-- Modelled from the spec: slot-not-configured outcome code
(`return_codes.h` is not under `src/`). -/
def RET_SLOT_NOT_CONFIGURED : Int := 7

/-- Modelled from the spec: PIN-required-but-not-authenticated outcome code
(`return_codes.h` is not under `src/`). -/
def RET_SECURITY_STATUS_NOT_SATISFIED : Int := 8

/-- Modelled from the spec: maximum PIN length for the set-PIN operation
(`settings.h` is not under `src/`); the spec notes it differs from the
authenticate maximum of 30. -/
def MAX_PIN_SIZE_CCID : Nat := 32

/-- Modelled from the spec: maximum byte length of the secret-tag value
(`settings.h` is not under `src/`). -/
def HOTP_SECRET_SIZE_BYTES : Nat := 20

/-- Modelled from the spec: whether codes have 8 digits; the properties
byte is 8 when set, 6 otherwise (`settings.h` is not under `src/`). -/
def HOTP_CODE_USE_8_DIGITS : Bool := false

/-- Modelled from the spec: the fixed credential slot identifier's length
(`settings.h` is not under `src/`). -/
def SLOT_NAME_LEN : Nat := 8

/-- Modelled from the spec: the fixed credential slot identifier's bytes
(`settings.h` is not under `src/`). -/
def SLOT_NAME : List Nat := List.replicate SLOT_NAME_LEN 88

/-- Modelled from the spec: algorithm/kind byte components for the Secret
Blob's first byte (`settings.h` is not under `src/`). -/
def Kind_HotpReverse : Nat := 0x30

/-- Modelled from the spec: SHA-1 algorithm nibble for the Secret Blob's
first byte (`settings.h` is not under `src/`). -/
def Algo_Sha1 : Nat := 0x01

/-- Modelled from the spec: tag identifiers (`tlv.h` is not under `src/`);
only distinctness matters to the command layer. -/
def Tag_CredentialId : Nat := 0x71

/-- Modelled from the spec: the key/secret tag (`tlv.h` is not under
`src/`). -/
def Tag_Key : Nat := 0x73

/-- Modelled from the spec: the challenge/response tag (`tlv.h` is not
under `src/`). -/
def Tag_Response : Nat := 0x75

/-- Modelled from the spec: the properties tag (`tlv.h` is not under
`src/`). -/
def Tag_Properties : Nat := 0x78

/-- Modelled from the spec: the initial-counter tag (`tlv.h` is not under
`src/`). -/
def Tag_InitialCounter : Nat := 0x7A

/-- Modelled from the spec: the password tag (`tlv.h` is not under
`src/`). -/
def Tag_Password : Nat := 0x80

/-- Modelled from the spec: the PIN attempt-counter tag in the select
response (`tlv.h` is not under `src/`). -/
def Tag_PINCounter : Nat := 0x81

/-- Modelled from the spec: the serial-number tag in the select response
(`tlv.h` is not under `src/`). -/
def Tag_SerialNumber : Nat := 0x8F

/-- Modelled from the spec: the firmware-version tag in the select response
(`tlv.h` is not under `src/`). -/
def Tag_Version : Nat := 0x79

/-- Modelled from the spec: instruction byte for the set-PIN command
(`ccid.h` is not under `src/`). -/
def Ins_SetPIN : Nat := 0x66

/-- Modelled from the spec: instruction byte for the verify-PIN command
(`ccid.h` is not under `src/`). -/
def Ins_VerifyPIN : Nat := 0x67

/-- Modelled from the spec: instruction byte for the provision/put command
(`ccid.h` is not under `src/`). -/
def Ins_Put : Nat := 0x68

/-- Modelled from the spec: instruction byte for the verify-code command
(`ccid.h` is not under `src/`). -/
def Ins_VerifyCode : Nat := 0x69

/-- Length of the initial segment of a C string before the first NUL byte:
the behaviour of `strlen` on the model of strings as byte lists. -/
def cstrlen (s : List Nat) : Nat := (s.takeWhile (fun b => b ≠ 0)).length

/-- C `strnlen`: the length of the string, capped at `maxlen`. -/
def strnlen (s : List Nat) (maxlen : Nat) : Nat := min (cstrlen s) maxlen

/-- The bytes a TLV text field of length `strnlen s m` carries: the first
`strnlen s m` bytes of `s`, as the codec reads `length` bytes from
`v_str`. -/
def cstrTake (s : List Nat) (m : Nat) : List Nat := s.take (strnlen s m)

/-- Big-endian 16-bit read of the first two bytes, the effect of
`be16toh(*(uint16_t *) p)` on the response bytes. -/
def be16 (l : List Nat) : Nat := 256 * l.headD 0 + (l.drop 1).headD 0

/-- Big-endian 32-bit read of the first four bytes, the effect of
`be32toh(*(uint32_t *) p)` on the response bytes. -/
def be32 (l : List Nat) : Nat :=
  2 ^ 24 * l.headD 0 + 2 ^ 16 * (l.drop 1).headD 0 +
    2 ^ 8 * (l.drop 2).headD 0 + (l.drop 3).headD 0

/-- The outcome of running one command-layer operation: the trace of
observable events in execution order, and the returned `int` — `none` when
a `rassert` contract violation aborted the operation before returning. -/
structure OpRun where
  trace : List Event
  ret : Option Int
deriving DecidableEq, Repr

/-- Serialize a TLV list for an `encode` event: the event records the
fields' tags, declared lengths, carried bytes and raw values, which is what
the codec consumes. -/
def tlvBytes (tlvs : List TLV) : List Nat :=
  tlvs.flatMap (fun t => t.tag :: t.length :: (t.v_data ++ [t.v_raw]))

/-- The single password TLV built by `set_pin_ccid` (operations_ccid.c
lines 36-43): tag `Tag_Password`, length `strnlen(admin_PIN,
MAX_PIN_SIZE_CCID)`, text kind. -/
def set_pin_tlvs (admin_PIN : List Nat) : List TLV :=
  [⟨Tag_Password, strnlen admin_PIN MAX_PIN_SIZE_CCID, 'S',
    cstrTake admin_PIN MAX_PIN_SIZE_CCID, 0⟩]

/-- `set_pin_ccid` (operations_ccid.c lines 35-64): build the password
TLV, clear buffers, encode, exchange; nonzero transport status is returned
unchanged; then status word `0x9000` maps to `0`, anything else to `1`. -/
def set_pin_ccid (admin_PIN : List Nat) (r : Int) (iccResult : IccResult) :
    OpRun :=
  let tlvs := set_pin_tlvs admin_PIN
  ⟨[Event.clear, Event.encode (tlvBytes tlvs) Ins_SetPIN, Event.transport],
    some (if r ≠ 0 then r
          else if iccResult.data_status_code ≠ 0x9000 then 1
          else 0)⟩

/-- The single password TLV built by `authenticate_ccid` (operations_ccid.c
lines 68-75): tag `Tag_Password`, length `strnlen(admin_PIN, 30)`, text
kind. -/
def authenticate_tlvs (admin_PIN : List Nat) : List TLV :=
  [⟨Tag_Password, strnlen admin_PIN 30, 'S', cstrTake admin_PIN 30, 0⟩]

/-- `authenticate_ccid` (operations_ccid.c lines 67-100): build the
password TLV, clear buffers, encode with `Ins_VerifyPIN`, exchange; nonzero
transport status is returned unchanged; then status word `0x6300` maps to
`RET_WRONG_PIN`, any other non-`0x9000` word to `1`, and `0x9000` to
`RET_NO_ERROR`. -/
def authenticate_ccid (admin_PIN : List Nat) (r : Int)
    (iccResult : IccResult) : OpRun :=
  let tlvs := authenticate_tlvs admin_PIN
  ⟨[Event.clear, Event.encode (tlvBytes tlvs) Ins_VerifyPIN,
      Event.transport],
    some (if r ≠ 0 then r
          else if iccResult.data_status_code = 0x6300 then RET_WRONG_PIN
          else if iccResult.data_status_code ≠ 0x9000 then 1
          else RET_NO_ERROR)⟩

/-- The four TLVs built by `set_secret_on_device_ccid` (operations_ccid.c
lines 118-143): credential slot identifier, the Secret Blob under
`Tag_Key` with the declared `decoded_length`, the two-byte properties
field, and the 32-bit initial counter. -/
def set_secret_tlvs (binary_secret_buf : List Nat) (decoded_length : Nat)
    (initial_counter_value : Nat) : List TLV :=
  [⟨Tag_CredentialId, SLOT_NAME_LEN, 'S', SLOT_NAME, 0⟩,
   ⟨Tag_Key, decoded_length, 'R', binary_secret_buf, 0⟩,
   ⟨Tag_Properties, 2, 'B', [Tag_Properties, 0x00], 0⟩,
   ⟨Tag_InitialCounter, 4, 'I', [], initial_counter_value⟩]

/-- `set_secret_on_device_ccid` (operations_ccid.c lines 103-172).
`decoded_secret` stands for the bytes produced by the external
`base32_decode` on the caller's base32 text; `decoded_length` is that
length plus 2, as in the C (the two prepended header bytes).  The first
`rassert` checks `decoded_length <= HOTP_SECRET_SIZE_BYTES`; the second
checks `hotp_counter < 0xFFFFFFFF`; a failed `rassert` aborts before any
buffer clearing, encoding or transport.  The Secret Blob prepends the
algorithm/kind byte and the digit-count byte to the decoded key.  On
transport success the status word maps `0x6a82` to `RET_NO_PIN_ATTEMPTS`,
`0x6982` to `RET_SECURITY_STATUS_NOT_SATISFIED`, any other non-`0x9000`
word to `RET_VALIDATION_FAILED`, and `0x9000` to `RET_NO_ERROR`. -/
def set_secret_on_device_ccid (decoded_secret : List Nat)
    (hotp_counter : Nat) (r : Int) (iccResult : IccResult) : OpRun :=
  let decoded_length := decoded_secret.length + 2
  if ¬ decoded_length ≤ HOTP_SECRET_SIZE_BYTES then
    ⟨[Event.decodeB32], none⟩
  else
    let binary_secret_buf :=
      (Kind_HotpReverse ||| Algo_Sha1) ::
        (if HOTP_CODE_USE_8_DIGITS then 8 else 6) :: decoded_secret
    if ¬ hotp_counter < 0xFFFFFFFF then
      ⟨[Event.decodeB32], none⟩
    else
      let initial_counter_value := hotp_counter % 2 ^ 32
      let tlvs :=
        set_secret_tlvs binary_secret_buf decoded_length
          initial_counter_value
      ⟨[Event.decodeB32, Event.clear,
          Event.encode (tlvBytes tlvs) Ins_Put, Event.transport],
        some (if r ≠ 0 then r
              else if iccResult.data_status_code = 0x6a82 then
                RET_NO_PIN_ATTEMPTS
              else if iccResult.data_status_code = 0x6982 then
                RET_SECURITY_STATUS_NOT_SATISFIED
              else if iccResult.data_status_code ≠ 0x9000 then
                RET_VALIDATION_FAILED
              else RET_NO_ERROR)⟩

/-- The two TLVs built by `verify_code_ccid` (operations_ccid.c lines
177-190): credential slot identifier and the candidate code as a 32-bit
integer field. -/
def verify_code_tlvs (code_to_verify : Nat) : List TLV :=
  [⟨Tag_CredentialId, SLOT_NAME_LEN, 'S', SLOT_NAME, 0⟩,
   ⟨Tag_Response, 4, 'I', [], code_to_verify⟩]

/-- `verify_code_ccid` (operations_ccid.c lines 174-216): build the two
TLVs, clear buffers, encode with `Ins_VerifyCode`, exchange; nonzero
transport status is returned unchanged; then status word `0x6A82` maps to
`RET_SLOT_NOT_CONFIGURED`, any other non-`0x9000` word to
`RET_VALIDATION_FAILED`, and `0x9000` to `RET_VALIDATION_PASSED`. -/
def verify_code_ccid (code_to_verify : Nat) (r : Int)
    (iccResult : IccResult) : OpRun :=
  let tlvs := verify_code_tlvs code_to_verify
  ⟨[Event.clear, Event.encode (tlvBytes tlvs) Ins_VerifyCode,
      Event.transport],
    some (if r ≠ 0 then r
          else if iccResult.data_status_code = 0x6A82 then
            RET_SLOT_NOT_CONFIGURED
          else if iccResult.data_status_code ≠ 0x9000 then
            RET_VALIDATION_FAILED
          else RET_VALIDATION_PASSED)⟩

/-- The three output parameters of `status_ccid`; `none` models "the C
function returned without writing to this output". -/
structure StatusOut where
  attempt_counter : Option Int
  firmware_version : Option Nat
  serial_number : Option Nat
deriving DecidableEq, Repr

/-- The full observable outcome of `status_ccid`: event trace, output
writes, and return code. -/
structure StatusRun where
  trace : List Event
  out : StatusOut
  ret : Int
deriving DecidableEq, Repr

/-- `status_ccid` (operations_ccid.c lines 218-263).  `r` and `iccResult`
are the select exchange's outcome; `counter_tlv`, `serial_tlv`,
`version_tlv` are the `get_tlv` lookup results for `Tag_PINCounter`,
`Tag_SerialNumber` and `Tag_Version` — `some t` models the C condition
`get_tlv returned RET_NO_ERROR and the found tag matches`.  A nonzero
transport status is returned unchanged; an empty response or a
non-`0x9000` status word yields `RET_COMM_ERROR` before any extraction.
Otherwise the attempt counter is the counter field's first byte, or the
`-1` sentinel when absent; the serial number is the big-endian 32-bit
serial field, or `0` when absent; a missing version field sets the version
output to `0` and returns `RET_COMM_ERROR`; finally a sentinel attempt
counter yields `RET_NO_PIN_ATTEMPTS`, anything else `RET_NO_ERROR`. -/
def status_ccid (r : Int) (iccResult : IccResult)
    (counter_tlv serial_tlv version_tlv : Option TLV) : StatusRun :=
  if r ≠ RET_NO_ERROR then ⟨[Event.transport], ⟨none, none, none⟩, r⟩
  else if iccResult.data_len = 0 ∨ iccResult.data_status_code ≠ 0x9000 then
    ⟨[Event.transport], ⟨none, none, none⟩, RET_COMM_ERROR⟩
  else
    let attempt_counter : Int :=
      match counter_tlv with
      | some t => (t.v_data.headD 0 : Int)
      | none => -1
    let serial_number : Nat :=
      match serial_tlv with
      | some t => be32 t.v_data
      | none => 0
    let fullTrace :=
      [Event.transport, Event.extract Tag_PINCounter,
        Event.extract Tag_SerialNumber, Event.extract Tag_Version]
    match version_tlv with
    | none =>
        ⟨fullTrace, ⟨some attempt_counter, some 0, some serial_number⟩,
          RET_COMM_ERROR⟩
    | some t =>
        ⟨fullTrace,
          ⟨some attempt_counter, some (be16 t.v_data), some serial_number⟩,
          if attempt_counter = -1 then RET_NO_PIN_ATTEMPTS
          else RET_NO_ERROR⟩

/-- An event that consumes the shared session buffers: encoding a request
into the send buffer, or exchanging it over the transport (which fills the
receive buffer). -/
def isUse : Event → Bool
  | Event.encode _ _ => true
  | Event.transport => true
  | _ => false

/-- A trace observes the clear-before-use discipline when a `clear` event
occurs before the first buffer-consuming event. -/
def clearBeforeUse (t : List Event) : Bool :=
  (t.takeWhile (fun e => ! isUse e)).contains Event.clear

/-- The protocol outcome codes the command layer can return after a
transport-successful exchange (the literal `1` is the generic failure code
returned by `set_pin_ccid` and `authenticate_ccid`). -/
def protocolOutcomes : List Int :=
  [RET_NO_ERROR, 1, RET_WRONG_PIN, RET_NO_PIN_ATTEMPTS,
   RET_SECURITY_STATUS_NOT_SATISFIED, RET_VALIDATION_FAILED,
   RET_VALIDATION_PASSED, RET_SLOT_NOT_CONFIGURED, RET_COMM_ERROR]

/-- Modelled from the spec: a transport-level failure status is a nonzero
opaque integer distinct from the protocol outcome codes (the transport's
implementation, `ccid.c`, is not under `src/`; spec sections 6 and 7 fix
its contract: "Returns a nonzero status on transport-level failure",
"transport-level failures propagate unchanged as an opaque integer status
distinct from protocol outcomes"). -/
def TransportFailStatus (r : Int) : Prop :=
  r ≠ 0 ∧ r ∉ protocolOutcomes

/-! ### Theorems -/

/-- C1: for every PIN input and every transport-successful exchange,
`authenticate_ccid` returns the wrong-PIN outcome iff the status word is
`0x6300`, success iff `0x9000`, and the generic failure outcome iff the
status word is anything else; the three outcomes are pairwise distinct, so
they partition the status-word space exhaustively and disjointly. -/
theorem authenticate_status_word_partition (admin_PIN : List Nat)
    (sw : Nat) (data : List Nat) (dlen : Nat) :
    ((authenticate_ccid admin_PIN 0 ⟨sw, data, dlen⟩).ret =
        some RET_WRONG_PIN ↔ sw = 0x6300) ∧
    ((authenticate_ccid admin_PIN 0 ⟨sw, data, dlen⟩).ret =
        some RET_NO_ERROR ↔ sw = 0x9000) ∧
    ((authenticate_ccid admin_PIN 0 ⟨sw, data, dlen⟩).ret = some 1 ↔
        (sw ≠ 0x6300 ∧ sw ≠ 0x9000)) ∧
    RET_WRONG_PIN ≠ RET_NO_ERROR ∧ RET_WRONG_PIN ≠ 1 ∧
    RET_NO_ERROR ≠ 1 := by
  simp only [authenticate_ccid, RET_WRONG_PIN, RET_NO_ERROR]
  norm_num
  rcases eq_or_ne sw 0x6300 with h1 | h1 <;>
    rcases eq_or_ne sw 0x9000 with h2 | h2 <;>
      simp [h1, h2] at *

/-- C4: for every candidate code and every transport-successful exchange,
`verify_code_ccid` returns validation-passed iff the status word is
`0x9000`, slot-not-configured iff `0x6A82`, and validation-failed iff the
status word is anything else. -/
theorem verify_code_status_word_partition (code_to_verify : Nat)
    (sw : Nat) (data : List Nat) (dlen : Nat) :
    ((verify_code_ccid code_to_verify 0 ⟨sw, data, dlen⟩).ret =
        some RET_VALIDATION_PASSED ↔ sw = 0x9000) ∧
    ((verify_code_ccid code_to_verify 0 ⟨sw, data, dlen⟩).ret =
        some RET_SLOT_NOT_CONFIGURED ↔ sw = 0x6A82) ∧
    ((verify_code_ccid code_to_verify 0 ⟨sw, data, dlen⟩).ret =
        some RET_VALIDATION_FAILED ↔ (sw ≠ 0x6A82 ∧ sw ≠ 0x9000)) := by
  simp only [verify_code_ccid, RET_VALIDATION_PASSED,
    RET_SLOT_NOT_CONFIGURED, RET_VALIDATION_FAILED]
  norm_num
  rcases eq_or_ne sw 0x6A82 with h1 | h1 <;>
    rcases eq_or_ne sw 0x9000 with h2 | h2 <;>
      simp [h1, h2] at *

/-- C6: for every transport-successful provision exchange (with the two
contract preconditions satisfied, so the exchange happens),
`set_secret_on_device_ccid` maps the status word to exactly one outcome:
`0x6a82` to no-PIN-attempts-left, `0x6982` to
PIN-required-but-not-authenticated, `0x9000` to success, and every other
value to the generic validation failure; the four outcomes are pairwise
distinct. -/
theorem set_secret_status_word_mapping (decoded_secret : List Nat)
    (hotp_counter sw : Nat) (data : List Nat) (dlen : Nat)
    (hsec : decoded_secret.length + 2 ≤ HOTP_SECRET_SIZE_BYTES)
    (hctr : hotp_counter < 0xFFFFFFFF) :
    (set_secret_on_device_ccid decoded_secret hotp_counter 0
        ⟨sw, data, dlen⟩).ret =
      some (if sw = 0x6a82 then RET_NO_PIN_ATTEMPTS
            else if sw = 0x6982 then RET_SECURITY_STATUS_NOT_SATISFIED
            else if sw = 0x9000 then RET_NO_ERROR
            else RET_VALIDATION_FAILED) ∧
    RET_NO_PIN_ATTEMPTS ≠ RET_SECURITY_STATUS_NOT_SATISFIED ∧
    RET_NO_PIN_ATTEMPTS ≠ RET_NO_ERROR ∧
    RET_NO_PIN_ATTEMPTS ≠ RET_VALIDATION_FAILED ∧
    RET_SECURITY_STATUS_NOT_SATISFIED ≠ RET_NO_ERROR ∧
    RET_SECURITY_STATUS_NOT_SATISFIED ≠ RET_VALIDATION_FAILED ∧
    RET_NO_ERROR ≠ RET_VALIDATION_FAILED := by
  refine ⟨?_, by decide, by decide, by decide, by decide, by decide,
    by decide⟩
  simp only [set_secret_on_device_ccid]
  split_ifs <;>
    simp_all [RET_NO_PIN_ATTEMPTS, RET_SECURITY_STATUS_NOT_SATISFIED,
      RET_NO_ERROR, RET_VALIDATION_FAILED]

/-- Witness for `set_secret_status_word_mapping` at a concrete input: a
10-byte decoded secret, counter 0, status word `0x6982`. -/
theorem set_secret_status_word_mapping_witness :
    (List.replicate 10 1 : List Nat).length + 2 ≤ HOTP_SECRET_SIZE_BYTES ∧
    (0 : Nat) < 0xFFFFFFFF ∧
    (set_secret_on_device_ccid (List.replicate 10 1) 0 0
        ⟨0x6982, [], 0⟩).ret = some RET_SECURITY_STATUS_NOT_SATISFIED :=
  ⟨by decide, by decide,
    by
      have h := set_secret_status_word_mapping (List.replicate 10 1) 0
        0x6982 [] 0 (by decide) (by decide)
      simpa using h.1⟩

/-- Counterexample to C2 as stated: the claim says every counter at least
`2 ^ 32 - 2` fails fast before any transport activity, but at the concrete
counter `0xFFFFFFFE = 2 ^ 32 - 2` the code's `rassert(hotp_counter <
0xFFFFFFFF)` passes and the operation reaches the transport exchange and
returns an outcome. -/
theorem set_secret_counter_claim_counterexample :
    (0xFFFFFFFE : Nat) = 2 ^ 32 - 2 ∧
    Event.transport ∈
      (set_secret_on_device_ccid (List.replicate 10 1) 0xFFFFFFFE 0
        ⟨0x9000, [], 0⟩).trace ∧
    (set_secret_on_device_ccid (List.replicate 10 1) 0xFFFFFFFE 0
        ⟨0x9000, [], 0⟩).ret = some RET_NO_ERROR := by
  refine ⟨by norm_num, ?_, ?_⟩ <;> decide

/-- C2 (amended): the counter precondition threshold is `2 ^ 32 - 1`
(`0xFFFFFFFF`), not `2 ^ 32 - 2`: for every counter at least `2 ^ 32 - 1`
the operation fails fast before any buffer clearing, encoding or transport
activity, and for every counter strictly below `2 ^ 32 - 1` the
precondition check passes and the counter is sent unchanged as the 32-bit
initial-counter field. -/
theorem set_secret_counter_precondition (decoded_secret : List Nat)
    (hotp_counter : Nat) (r : Int) (icc : IccResult)
    (hsec : decoded_secret.length + 2 ≤ HOTP_SECRET_SIZE_BYTES) :
    (2 ^ 32 - 1 ≤ hotp_counter →
      (set_secret_on_device_ccid decoded_secret hotp_counter r
          icc).trace = [Event.decodeB32] ∧
      Event.transport ∉
        (set_secret_on_device_ccid decoded_secret hotp_counter r
          icc).trace ∧
      (set_secret_on_device_ccid decoded_secret hotp_counter r
          icc).ret = none) ∧
    (hotp_counter < 2 ^ 32 - 1 →
      (set_secret_on_device_ccid decoded_secret hotp_counter r
          icc).trace =
        [Event.decodeB32, Event.clear,
          Event.encode
            (tlvBytes (set_secret_tlvs
              ((Kind_HotpReverse ||| Algo_Sha1) ::
                (if HOTP_CODE_USE_8_DIGITS then 8 else 6) ::
                  decoded_secret)
              (decoded_secret.length + 2) hotp_counter)) Ins_Put,
          Event.transport]) := by
  constructor
  · intro h
    simp only [set_secret_on_device_ccid]
    rw [if_neg (by omega), if_pos (by norm_num; omega)]
    exact ⟨rfl, by decide, rfl⟩
  · intro h
    simp only [set_secret_on_device_ccid]
    rw [if_neg (by omega), if_neg (by norm_num; omega)]
    simp
    rw [Nat.mod_eq_of_lt (by omega)]

/-- Witness for `set_secret_counter_precondition` at a concrete input: a
10-byte decoded secret; counter `2 ^ 32` aborts before transport, counter
7 reaches the exchange with the field value 7. -/
theorem set_secret_counter_precondition_witness :
    (List.replicate 10 1 : List Nat).length + 2 ≤ HOTP_SECRET_SIZE_BYTES ∧
    2 ^ 32 - 1 ≤ 2 ^ 32 ∧
    (set_secret_on_device_ccid (List.replicate 10 1) (2 ^ 32) 0
        ⟨0x9000, [], 0⟩).ret = none ∧
    (7 : Nat) < 2 ^ 32 - 1 ∧
    (set_secret_on_device_ccid (List.replicate 10 1) 7 0
        ⟨0x9000, [], 0⟩).trace =
      [Event.decodeB32, Event.clear,
        Event.encode
          (tlvBytes (set_secret_tlvs
            ((Kind_HotpReverse ||| Algo_Sha1) ::
              (if HOTP_CODE_USE_8_DIGITS then 8 else 6) ::
                List.replicate 10 1)
            ((List.replicate 10 1 : List Nat).length + 2) 7)) Ins_Put,
        Event.transport] :=
  ⟨by decide, by norm_num,
    ((set_secret_counter_precondition (List.replicate 10 1) (2 ^ 32) 0
        ⟨0x9000, [], 0⟩ (by decide)).1 (by norm_num)).2.2,
    by norm_num,
    (set_secret_counter_precondition (List.replicate 10 1) 7 0
        ⟨0x9000, [], 0⟩ (by decide)).2 (by norm_num)⟩

/-- C3: for every decoded secret whose length exceeds the secret-tag
maximum `HOTP_SECRET_SIZE_BYTES`, `set_secret_on_device_ccid` aborts at
the bounds check immediately after decoding: the trace is the decode event
alone — zero transport invocations — and no result is returned. -/
theorem set_secret_oversized_fails_before_transport
    (decoded_secret : List Nat) (hotp_counter : Nat) (r : Int)
    (icc : IccResult)
    (hbig : HOTP_SECRET_SIZE_BYTES < decoded_secret.length) :
    (set_secret_on_device_ccid decoded_secret hotp_counter r icc).trace =
        [Event.decodeB32] ∧
    Event.transport ∉
      (set_secret_on_device_ccid decoded_secret hotp_counter r
        icc).trace ∧
    (set_secret_on_device_ccid decoded_secret hotp_counter r icc).ret =
        none := by
  simp only [set_secret_on_device_ccid]
  rw [if_pos (by omega)]
  exact ⟨rfl, by decide, rfl⟩

/-- Witness for `set_secret_oversized_fails_before_transport` at a
concrete input: a 21-byte decoded secret against the 20-byte maximum. -/
theorem set_secret_oversized_fails_before_transport_witness :
    HOTP_SECRET_SIZE_BYTES < (List.replicate 21 1 : List Nat).length ∧
    (set_secret_on_device_ccid (List.replicate 21 1) 0 0
        ⟨0, [], 0⟩).trace = [Event.decodeB32] ∧
    (set_secret_on_device_ccid (List.replicate 21 1) 0 0
        ⟨0, [], 0⟩).ret = none :=
  ⟨by decide,
    (set_secret_oversized_fails_before_transport (List.replicate 21 1) 0 0
        ⟨0, [], 0⟩ (by decide)).1,
    (set_secret_oversized_fails_before_transport (List.replicate 21 1) 0 0
        ⟨0, [], 0⟩ (by decide)).2.2⟩

/-- On a string without NUL bytes, `cstrlen` is the list length. -/
theorem cstrlen_of_no_nul (s : List Nat) (h : (0 : Nat) ∉ s) :
    cstrlen s = s.length := by
  unfold cstrlen
  rw [List.takeWhile_eq_self_iff.mpr]
  intro x hx
  simp only [decide_eq_true_eq]
  exact fun hx0 => h (hx0 ▸ hx)

/-- C7: for every NUL-free PIN input, the password field built by set-PIN
and by authenticate declares and carries exactly
`min (length of the input) (maximum for the operation)` bytes — over-length
input is truncated, never rejected (both operations always return a
result) — and the two maxima differ: `MAX_PIN_SIZE_CCID` for set-PIN, 30
for authenticate; the encoded fields are what each operation hands to the
codec. -/
theorem pin_field_truncation (admin_PIN : List Nat) (r : Int)
    (icc : IccResult) (hpin : (0 : Nat) ∉ admin_PIN) :
    (∀ t ∈ set_pin_tlvs admin_PIN,
      t.length = min admin_PIN.length MAX_PIN_SIZE_CCID ∧
      t.v_data.length = min admin_PIN.length MAX_PIN_SIZE_CCID) ∧
    (∀ t ∈ authenticate_tlvs admin_PIN,
      t.length = min admin_PIN.length 30 ∧
      t.v_data.length = min admin_PIN.length 30) ∧
    MAX_PIN_SIZE_CCID ≠ 30 ∧
    (set_pin_ccid admin_PIN r icc).ret.isSome = true ∧
    (authenticate_ccid admin_PIN r icc).ret.isSome = true ∧
    Event.encode (tlvBytes (set_pin_tlvs admin_PIN)) Ins_SetPIN ∈
      (set_pin_ccid admin_PIN r icc).trace ∧
    Event.encode (tlvBytes (authenticate_tlvs admin_PIN)) Ins_VerifyPIN ∈
      (authenticate_ccid admin_PIN r icc).trace := by
  have hs : cstrlen admin_PIN = admin_PIN.length :=
    cstrlen_of_no_nul admin_PIN hpin
  refine ⟨?_, ?_, by decide, rfl, rfl, ?_, ?_⟩
  · intro t ht
    simp only [set_pin_tlvs, List.mem_singleton] at ht
    subst ht
    constructor
    · simp [strnlen, hs, Nat.min_comm]
    · simp [cstrTake, strnlen, hs, List.length_take, Nat.min_comm,
        Nat.min_assoc, Nat.min_self]
  · intro t ht
    simp only [authenticate_tlvs, List.mem_singleton] at ht
    subst ht
    constructor
    · simp [strnlen, hs, Nat.min_comm]
    · simp [cstrTake, strnlen, hs, List.length_take, Nat.min_comm,
        Nat.min_assoc, Nat.min_self]
  · simp [set_pin_ccid]
  · simp [authenticate_ccid]

/-- Witness for `pin_field_truncation` at a concrete input: a 35-byte
NUL-free PIN, truncated to 32 bytes for set-PIN and 30 for
authenticate. -/
theorem pin_field_truncation_witness :
    (0 : Nat) ∉ List.replicate 35 7 ∧
    (∀ t ∈ set_pin_tlvs (List.replicate 35 7),
      t.length = min (List.replicate 35 7 : List Nat).length
        MAX_PIN_SIZE_CCID) ∧
    (∀ t ∈ authenticate_tlvs (List.replicate 35 7),
      t.length = min (List.replicate 35 7 : List Nat).length 30) :=
  ⟨by decide,
    fun t ht =>
      ((pin_field_truncation (List.replicate 35 7) 0 ⟨0, [], 0⟩
        (by decide)).1 t ht).1,
    fun t ht =>
      (((pin_field_truncation (List.replicate 35 7) 0 ⟨0, [], 0⟩
        (by decide)).2.1) t ht).1⟩

/-- C5: for every select response that reaches field extraction, the final
result of `status_ccid` follows the three-way field logic: a missing
firmware-version field yields the communication-error outcome with the
version output written as zero regardless of the attempt-counter and
serial fields; otherwise a missing attempt-counter field yields the
no-PIN-attempts outcome with the counter output at the `-1` sentinel;
otherwise success, with attempt counter, serial number (zero when the
serial field is absent) and firmware version all populated.  The
version-absence branch is stated for arbitrary counter and serial lookup
results: it short-circuits before the attempt-counter check. -/
theorem status_field_logic (icc : IccResult)
    (counter_tlv serial_tlv version_tlv : Option TLV)
    (hlen : icc.data_len ≠ 0) (hsw : icc.data_status_code = 0x9000) :
    (version_tlv = none →
      (status_ccid RET_NO_ERROR icc counter_tlv serial_tlv
          version_tlv).ret = RET_COMM_ERROR ∧
      (status_ccid RET_NO_ERROR icc counter_tlv serial_tlv
          version_tlv).out.firmware_version = some 0) ∧
    (∀ v, version_tlv = some v → counter_tlv = none →
      (status_ccid RET_NO_ERROR icc counter_tlv serial_tlv
          version_tlv).ret = RET_NO_PIN_ATTEMPTS ∧
      (status_ccid RET_NO_ERROR icc counter_tlv serial_tlv
          version_tlv).out =
        ⟨some (-1), some (be16 v.v_data),
          some (match serial_tlv with
                | some s => be32 s.v_data
                | none => 0)⟩) ∧
    (∀ v c, version_tlv = some v → counter_tlv = some c →
      (status_ccid RET_NO_ERROR icc counter_tlv serial_tlv
          version_tlv).ret = RET_NO_ERROR ∧
      (status_ccid RET_NO_ERROR icc counter_tlv serial_tlv
          version_tlv).out =
        ⟨some (c.v_data.headD 0 : Int), some (be16 v.v_data),
          some (match serial_tlv with
                | some s => be32 s.v_data
                | none => 0)⟩) := by
  refine ⟨?_, ?_, ?_⟩
  · intro hv
    subst hv
    simp [status_ccid, hlen, hsw]
  · intro v hv hc
    subst hv
    subst hc
    simp [status_ccid, hlen, hsw]
  · intro v c hv hc
    subst hv
    subst hc
    have hne : ((c.v_data.headD 0 : Nat) : Int) ≠ -1 := by omega
    simp [status_ccid, hlen, hsw, hne]

/-- Witness for `status_field_logic` at the spec's concrete example:
attempt counter absent, version present with bytes `0x01 0x00`, serial
absent — the result is no-PIN-attempts with firmware version `0x0100`,
serial number 0 and the sentinel attempt counter. -/
theorem status_field_logic_witness :
    (IccResult.mk 0x9000 [1] 1).data_len ≠ 0 ∧
    (IccResult.mk 0x9000 [1] 1).data_status_code = 0x9000 ∧
    ((status_ccid RET_NO_ERROR ⟨0x9000, [1], 1⟩ none none
        (some ⟨Tag_Version, 2, 'R', [1, 0], 0⟩)).ret =
      RET_NO_PIN_ATTEMPTS ∧
    (status_ccid RET_NO_ERROR ⟨0x9000, [1], 1⟩ none none
        (some ⟨Tag_Version, 2, 'R', [1, 0], 0⟩)).out =
      ⟨some (-1), some 0x0100, some 0⟩) := by
  refine ⟨by decide, rfl, ?_⟩
  have h := (status_field_logic ⟨0x9000, [1], 1⟩ none none
    (some ⟨Tag_Version, 2, 'R', [1, 0], 0⟩) (by decide) rfl).2.1
    ⟨Tag_Version, 2, 'R', [1, 0], 0⟩ rfl rfl
  exact ⟨h.1, by rw [h.2]; rfl⟩

/-- C10: whenever the select exchange succeeds at the transport level but
returns an empty response buffer or a status word other than `0x9000`,
`status_ccid` returns the communication-error outcome immediately: the
trace stops at the transport event with no extraction of any of the three
response fields, and none of the three outputs is written. -/
theorem status_early_comm_error (icc : IccResult)
    (counter_tlv serial_tlv version_tlv : Option TLV)
    (h : icc.data_len = 0 ∨ icc.data_status_code ≠ 0x9000) :
    status_ccid RET_NO_ERROR icc counter_tlv serial_tlv version_tlv =
      ⟨[Event.transport], ⟨none, none, none⟩, RET_COMM_ERROR⟩ ∧
    ∀ t, Event.extract t ∉
      (status_ccid RET_NO_ERROR icc counter_tlv serial_tlv
        version_tlv).trace := by
  have h1 : status_ccid RET_NO_ERROR icc counter_tlv serial_tlv
      version_tlv =
      ⟨[Event.transport], ⟨none, none, none⟩, RET_COMM_ERROR⟩ := by
    simp only [status_ccid]
    rw [if_neg (by simp), if_pos h]
  exact ⟨h1, fun t => by simp [h1]⟩

/-- Witness for `status_early_comm_error` at a concrete input: a
transport-successful select whose status word is `0x6a82`. -/
theorem status_early_comm_error_witness :
    ((IccResult.mk 0x6a82 [1] 1).data_len = 0 ∨
      (IccResult.mk 0x6a82 [1] 1).data_status_code ≠ 0x9000) ∧
    status_ccid RET_NO_ERROR ⟨0x6a82, [1], 1⟩ none none none =
      ⟨[Event.transport], ⟨none, none, none⟩, RET_COMM_ERROR⟩ :=
  ⟨Or.inr (by decide),
    (status_early_comm_error ⟨0x6a82, [1], 1⟩ none none none
      (Or.inr (by decide))).1⟩

/-- C9: each of the four operations that use the shared device session
buffers — set PIN, authenticate, provision secret (once its contract
preconditions hold, so it proceeds), verify code — emits the
`clean_buffers` event before any buffer-consuming event (encoding or
transport), and actually encodes and exchanges, so no request is built or
exchanged over buffers that still hold a prior command's bytes. -/
theorem buffers_cleared_before_use (admin_PIN decoded_secret : List Nat)
    (hotp_counter code_to_verify : Nat) (r : Int) (icc : IccResult)
    (hsec : decoded_secret.length + 2 ≤ HOTP_SECRET_SIZE_BYTES)
    (hctr : hotp_counter < 0xFFFFFFFF) :
    (clearBeforeUse (set_pin_ccid admin_PIN r icc).trace = true ∧
      Event.transport ∈ (set_pin_ccid admin_PIN r icc).trace ∧
      (∃ bs ins, Event.encode bs ins ∈
        (set_pin_ccid admin_PIN r icc).trace)) ∧
    (clearBeforeUse (authenticate_ccid admin_PIN r icc).trace = true ∧
      Event.transport ∈ (authenticate_ccid admin_PIN r icc).trace ∧
      (∃ bs ins, Event.encode bs ins ∈
        (authenticate_ccid admin_PIN r icc).trace)) ∧
    (clearBeforeUse (set_secret_on_device_ccid decoded_secret hotp_counter
        r icc).trace = true ∧
      Event.transport ∈ (set_secret_on_device_ccid decoded_secret
        hotp_counter r icc).trace ∧
      (∃ bs ins, Event.encode bs ins ∈
        (set_secret_on_device_ccid decoded_secret hotp_counter r
          icc).trace)) ∧
    (clearBeforeUse (verify_code_ccid code_to_verify r icc).trace = true ∧
      Event.transport ∈ (verify_code_ccid code_to_verify r icc).trace ∧
      (∃ bs ins, Event.encode bs ins ∈
        (verify_code_ccid code_to_verify r icc).trace)) := by
  have hsecret : (set_secret_on_device_ccid decoded_secret hotp_counter r
      icc).trace =
      [Event.decodeB32, Event.clear,
        Event.encode
          (tlvBytes (set_secret_tlvs
            ((Kind_HotpReverse ||| Algo_Sha1) ::
              (if HOTP_CODE_USE_8_DIGITS then 8 else 6) ::
                decoded_secret)
            (decoded_secret.length + 2) (hotp_counter % 2 ^ 32)))
          Ins_Put,
        Event.transport] := by
    simp only [set_secret_on_device_ccid]
    rw [if_neg (by omega), if_neg (by omega)]
  refine ⟨⟨rfl, ?_, tlvBytes (set_pin_tlvs admin_PIN), Ins_SetPIN, ?_⟩,
    ⟨rfl, ?_, tlvBytes (authenticate_tlvs admin_PIN), Ins_VerifyPIN, ?_⟩,
    ⟨?_, ?_, tlvBytes (set_secret_tlvs
        ((Kind_HotpReverse ||| Algo_Sha1) ::
          (if HOTP_CODE_USE_8_DIGITS then 8 else 6) :: decoded_secret)
        (decoded_secret.length + 2) (hotp_counter % 2 ^ 32)),
      Ins_Put, ?_⟩,
    ⟨rfl, ?_, tlvBytes (verify_code_tlvs code_to_verify), Ins_VerifyCode,
      ?_⟩⟩
  · simp [set_pin_ccid]
  · simp [set_pin_ccid]
  · simp [authenticate_ccid]
  · simp [authenticate_ccid]
  · rw [hsecret]
    rfl
  · rw [hsecret]
    simp
  · rw [hsecret]
    simp
  · simp [verify_code_ccid]
  · simp [verify_code_ccid]

/-- Witness for `buffers_cleared_before_use` at concrete inputs: PIN
`[1]`, a 10-byte decoded secret, counter 0, code 123456. -/
theorem buffers_cleared_before_use_witness :
    (List.replicate 10 1 : List Nat).length + 2 ≤ HOTP_SECRET_SIZE_BYTES ∧
    (0 : Nat) < 0xFFFFFFFF ∧
    clearBeforeUse (set_secret_on_device_ccid (List.replicate 10 1) 0 0
      ⟨0x9000, [], 0⟩).trace = true ∧
    clearBeforeUse (verify_code_ccid 123456 0 ⟨0x9000, [], 0⟩).trace =
      true :=
  ⟨by decide, by decide,
    (buffers_cleared_before_use [1] (List.replicate 10 1) 0 123456 0
      ⟨0x9000, [], 0⟩ (by decide) (by decide)).2.2.1.1,
    (buffers_cleared_before_use [1] (List.replicate 10 1) 0 123456 0
      ⟨0x9000, [], 0⟩ (by decide) (by decide)).2.2.2.1⟩

/-- C8: whenever the transport exchange reports a transport-level failure
status, every operation returns that status unchanged and immediately:
the returned value is the transport status itself, the result does not
depend on the response's contents (no status word is consulted), exactly
one transport exchange appears in the trace (no retry), and the
propagated status is distinct from every protocol outcome code. -/
theorem transport_failure_propagates (r : Int)
    (h : TransportFailStatus r) (admin_PIN decoded_secret : List Nat)
    (hotp_counter code_to_verify : Nat) (icc iccB : IccResult)
    (ct st vt ctB stB vtB : Option TLV)
    (hsec : decoded_secret.length + 2 ≤ HOTP_SECRET_SIZE_BYTES)
    (hctr : hotp_counter < 0xFFFFFFFF) :
    ((set_pin_ccid admin_PIN r icc).ret = some r ∧
      set_pin_ccid admin_PIN r icc = set_pin_ccid admin_PIN r iccB ∧
      (set_pin_ccid admin_PIN r icc).trace.count Event.transport = 1) ∧
    ((authenticate_ccid admin_PIN r icc).ret = some r ∧
      authenticate_ccid admin_PIN r icc =
        authenticate_ccid admin_PIN r iccB ∧
      (authenticate_ccid admin_PIN r icc).trace.count Event.transport =
        1) ∧
    ((set_secret_on_device_ccid decoded_secret hotp_counter r icc).ret =
        some r ∧
      set_secret_on_device_ccid decoded_secret hotp_counter r icc =
        set_secret_on_device_ccid decoded_secret hotp_counter r iccB ∧
      (set_secret_on_device_ccid decoded_secret hotp_counter r
        icc).trace.count Event.transport = 1) ∧
    ((verify_code_ccid code_to_verify r icc).ret = some r ∧
      verify_code_ccid code_to_verify r icc =
        verify_code_ccid code_to_verify r iccB ∧
      (verify_code_ccid code_to_verify r icc).trace.count Event.transport
        = 1) ∧
    ((status_ccid r icc ct st vt).ret = r ∧
      status_ccid r icc ct st vt = status_ccid r iccB ctB stB vtB ∧
      (status_ccid r icc ct st vt).trace.count Event.transport = 1) ∧
    r ∉ protocolOutcomes := by
  obtain ⟨hr0, hrP⟩ := h
  have hstatus : ∀ (iccX : IccResult) (c s v : Option TLV),
      status_ccid r iccX c s v =
        ⟨[Event.transport], ⟨none, none, none⟩, r⟩ := by
    intro iccX c s v
    simp only [status_ccid]
    rw [if_pos (by simp [RET_NO_ERROR, hr0])]
  refine ⟨⟨?_, ?_, ?_⟩, ⟨?_, ?_, ?_⟩, ⟨?_, ?_, ?_⟩, ⟨?_, ?_, ?_⟩,
      ⟨?_, ?_, ?_⟩, hrP⟩ <;>
    simp [set_pin_ccid, authenticate_ccid, verify_code_ccid,
      set_secret_on_device_ccid, hstatus, hr0, hsec, hctr,
      List.count_cons]

/-- Witness for `transport_failure_propagates` at a concrete input: the
transport status `-5` with a 10-byte decoded secret and counter 0. -/
theorem transport_failure_propagates_witness :
    TransportFailStatus (-5) ∧
    (List.replicate 10 1 : List Nat).length + 2 ≤ HOTP_SECRET_SIZE_BYTES ∧
    (0 : Nat) < 0xFFFFFFFF ∧
    (set_pin_ccid [1] (-5) ⟨0x9000, [], 0⟩).ret = some (-5) ∧
    (status_ccid (-5) ⟨0x9000, [], 0⟩ none none none).ret = -5 :=
  ⟨⟨by decide, by decide⟩, by decide, by decide,
    (transport_failure_propagates (-5) ⟨by decide, by decide⟩ [1]
      (List.replicate 10 1) 0 123456 ⟨0x9000, [], 0⟩ ⟨0x9000, [], 0⟩
      none none none none none none (by decide) (by decide)).1.1,
    (transport_failure_propagates (-5) ⟨by decide, by decide⟩ [1]
      (List.replicate 10 1) 0 123456 ⟨0x9000, [], 0⟩ ⟨0x9000, [], 0⟩
      none none none none none none (by decide) (by decide)).2.2.2.2.1.1⟩

end NkHotp
